import Mathlib

/-!
# esp_blink: the blink control loop and its input handlers

A shallow embedding of `main/blink_example_main.c`.

* The five file-scope variables (`s_led_state`, `s_led_red`, `s_led_green`,
  `s_led_blue`, `s_led_period`) form the record `State`.  Machine integers are
  natural numbers; the store into the 16-bit `s_led_period` reduces modulo
  `2 ^ 16` explicitly, after the arithmetic has been done in `int` as the C
  integer promotions prescribe.
* Calls into the vendor drivers and the log are recorded as a list of `Effect`s.
* Each callback body and one pass of the `while (1)` body of `app_main` is one
  `Event`; a program run is a list of events applied in order.
-/

namespace EspBlink

/-! ## Constants -/

/-- The LED pin, `#define BLINK_GPIO 8`. -/
def BLINK_GPIO : Nat := 8

/-- Number of values of a `uint16_t`. -/
def UINT16_MOD : Nat := 65536

/-! ## Program variables -/

/-- The mutable file-scope variables of `blink_example_main.c` (lines 34-40);
the two driver handles `s_btn` and `s_knob` carry no data of interest. -/
structure State where
  s_led_state : Nat
  s_led_red : Nat
  s_led_green : Nat
  s_led_blue : Nat
  s_led_period : Nat
  deriving DecidableEq, Repr

/-- The static initialisers: `s_led_state = 0`, `s_led_red = 5`,
`s_led_green = 0`, `s_led_blue = 0`, `s_led_period = 1000`. -/
def init : State :=
  { s_led_state := 0, s_led_red := 5, s_led_green := 0, s_led_blue := 0,
    s_led_period := 1000 }

/-- The build-time choice `CONFIG_BLINK_LED_STRIP` / `CONFIG_BLINK_LED_GPIO`. -/
inductive Backend where
  | led_strip
  | gpio
  deriving DecidableEq, Repr

/-- Observable calls made by the program: log lines and driver calls. -/
inductive Effect where
  | ESP_LOGI (fmt : String) (args : List Nat)
  | led_strip_set_pixel (index red green blue : Nat)
  | led_strip_refresh
  | led_strip_clear
  | gpio_set_level (gpio_num level : Nat)
  | vTaskDelay (ticks : Nat)
  deriving DecidableEq, Repr

/-! ## Callback bodies

The callbacks are given as state transformers; the log line each of them
prints first is emitted by `step` below. -/

/-- Body of `_button_press_down_cb` (lines 49-63). -/
def _button_press_down_cb (s : State) : State :=
  if s.s_led_red ≠ 0 then
    { s with s_led_red := 0, s_led_green := 5 }
  else if s.s_led_green ≠ 0 then
    { s with s_led_green := 0, s_led_blue := 5 }
  else
    { s with s_led_blue := 0, s_led_red := 5 }

/-- Body of `_button_press_up_cb` (line 68): logging only. -/
def _button_press_up_cb (s : State) : State := s

/-- Body of `_knob_right_cb` (lines 74-75).  The sum is computed in `int` and
stored back into the `uint16_t`. -/
def _knob_right_cb (s : State) : State :=
  if s.s_led_period < 3100 then
    { s with s_led_period := (s.s_led_period + 100) % UINT16_MOD }
  else s

/-- Body of `_knob_left_cb` (lines 81-82).  The difference is computed in
`int` and stored back into the `uint16_t`. -/
def _knob_left_cb (s : State) : State :=
  if s.s_led_period > 100 then
    { s with s_led_period :=
        ((((s.s_led_period : Int) - 100) % (UINT16_MOD : Int))).toNat }
  else s

/-! ## LED output -/

/-- The two variants of `blink_led` (lines 118-133 and 164-168). -/
def blink_led (b : Backend) (s : State) : List Effect :=
  match b with
  | Backend.led_strip =>
    if s.s_led_state ≠ 0 then
      [Effect.led_strip_set_pixel 0 s.s_led_red s.s_led_green s.s_led_blue,
       Effect.led_strip_refresh]
    else
      [Effect.led_strip_clear]
  | Backend.gpio => [Effect.gpio_set_level BLINK_GPIO s.s_led_state]

/-- The C operator `!` on an integer value. -/
def lnot (x : Nat) : Nat := if x = 0 then 1 else 0

/-- One pass through the body of `while (1)` in `app_main` (lines 194-199).
`tick` is `portTICK_PERIOD_MS`, which comes from the FreeRTOS configuration. -/
def app_main_loop (tick : Nat) (b : Backend) (s : State) : State × List Effect :=
  let log := [Effect.ESP_LOGI "s_led_period %d" [s.s_led_period]]
  let out := blink_led b s
  let s1 := { s with s_led_state := lnot s.s_led_state }
  (s1, log ++ out ++ [Effect.vTaskDelay (s1.s_led_period / tick)])

/-! ## Runs -/

/-- What can happen to the program after start-up. -/
inductive Event where
  | knob_right
  | knob_left
  | press_down
  | press_up
  | loop_iter
  deriving DecidableEq, Repr

/-- The effect of one event on the variables, with the calls it makes. -/
def step (tick : Nat) (b : Backend) (s : State) : Event → State × List Effect
  | Event.knob_right => (_knob_right_cb s, [Effect.ESP_LOGI "KONB: KONB_RIGHT" []])
  | Event.knob_left => (_knob_left_cb s, [Effect.ESP_LOGI "KONB: KONB_LEFT" []])
  | Event.press_down =>
    (_button_press_down_cb s, [Effect.ESP_LOGI "BTN: BUTTON_PRESS_DOWN" []])
  | Event.press_up => (_button_press_up_cb s, [Effect.ESP_LOGI "BTN: BUTTON_PRESS_UP" []])
  | Event.loop_iter => app_main_loop tick b s

/-- Apply a sequence of events in order, collecting the calls made. -/
def run (tick : Nat) (b : Backend) (s : State) : List Event → State × List Effect
  | [] => (s, [])
  | e :: es =>
    let r := step tick b s e
    let rest := run tick b r.1 es
    (rest.1, r.2 ++ rest.2)

/-- The value of `s_led_state` at each call of `blink_led` during a run, in
order: one entry per main-loop iteration. -/
def renderStates (tick : Nat) (b : Backend) (s : State) : List Event → List Nat
  | [] => []
  | Event.loop_iter :: es =>
    s.s_led_state :: renderStates tick b (step tick b s Event.loop_iter).1 es
  | e :: es => renderStates tick b (step tick b s e).1 es

/-- The levels passed to `gpio_set_level` for `BLINK_GPIO` in a list of calls. -/
def gpioLevels : List Effect → List Nat
  | [] => []
  | Effect.gpio_set_level pin level :: es =>
    if pin = BLINK_GPIO then level :: gpioLevels es else gpioLevels es
  | _ :: es => gpioLevels es

/-- The colour as a triple (red, green, blue). -/
def colour (s : State) : Nat × Nat × Nat := (s.s_led_red, s.s_led_green, s.s_led_blue)

/-- The three single-colour settings at intensity 5. -/
def SingleFive (s : State) : Prop :=
  colour s = (5, 0, 0) ∨ colour s = (0, 5, 0) ∨ colour s = (0, 0, 5)

/-- The colour reached from red-only after `n` presses, by position in the
cycle red, green, blue. -/
def cycleColour (n : Nat) : Nat × Nat × Nat :=
  if n % 3 = 0 then (5, 0, 0) else if n % 3 = 1 then (0, 5, 0) else (0, 0, 5)

/-! ## Single knob steps -/

/-- Storing `p - 100` into a `uint16_t` is exact once `p > 100` and `p` itself
fits in 16 bits. -/
theorem left_store_exact (p : Nat) (h : 100 < p) (hp : p < 65536) :
    ((((p : Int) - 100) % (UINT16_MOD : Int))).toNat = p - 100 := by
  have h1 : ((UINT16_MOD : Nat) : Int) = 65536 := by simp [UINT16_MOD]
  rw [h1, Int.emod_eq_of_lt (by omega) (by omega)]
  omega

/-- Shared form of the right-rotation step on an aligned, in-range period. -/
theorem right_period_aligned (s : State) (hm : s.s_led_period % 100 = 0)
    (hlo : 100 ≤ s.s_led_period) (hhi : s.s_led_period ≤ 3100) :
    (_knob_right_cb s).s_led_period = min (s.s_led_period + 100) 3100 := by
  unfold _knob_right_cb UINT16_MOD
  split
  · simp only
    omega
  · omega

/-- Shared form of the left-rotation step on an aligned, in-range period. -/
theorem left_period_aligned (s : State) (hm : s.s_led_period % 100 = 0)
    (hlo : 100 ≤ s.s_led_period) (hhi : s.s_led_period ≤ 3100) :
    (_knob_left_cb s).s_led_period = max (s.s_led_period - 100) 100 := by
  unfold _knob_left_cb
  split
  · rw [left_store_exact s.s_led_period (by omega) (by omega)]
    simp only
    omega
  · omega

/-- C1: from a period P that is a multiple of 100 with 100 ≤ P ≤ 3100, one
rightward rotation leaves the period equal to min (P + 100) 3100. -/
theorem knob_right_one (s : State) (hm : s.s_led_period % 100 = 0)
    (hlo : 100 ≤ s.s_led_period) (hhi : s.s_led_period ≤ 3100) :
    (_knob_right_cb s).s_led_period = min (s.s_led_period + 100) 3100 :=
  right_period_aligned s hm hlo hhi

theorem knob_right_one_witness :
    (init.s_led_period % 100 = 0 ∧ 100 ≤ init.s_led_period ∧ init.s_led_period ≤ 3100) ∧
      (_knob_right_cb init).s_led_period = min (init.s_led_period + 100) 3100 :=
  ⟨by decide, knob_right_one init (by decide) (by decide) (by decide)⟩

/-- C2: from a period P that is a multiple of 100 with 100 ≤ P ≤ 3100, one
leftward rotation leaves the period equal to max (P - 100) 100. -/
theorem knob_left_one (s : State) (hm : s.s_led_period % 100 = 0)
    (hlo : 100 ≤ s.s_led_period) (hhi : s.s_led_period ≤ 3100) :
    (_knob_left_cb s).s_led_period = max (s.s_led_period - 100) 100 :=
  left_period_aligned s hm hlo hhi

theorem knob_left_one_witness :
    (init.s_led_period % 100 = 0 ∧ 100 ≤ init.s_led_period ∧ init.s_led_period ≤ 3100) ∧
      (_knob_left_cb init).s_led_period = max (init.s_led_period - 100) 100 :=
  ⟨by decide, knob_left_one init (by decide) (by decide) (by decide)⟩

/-! ## Frame properties -/

theorem press_down_period (s : State) :
    (_button_press_down_cb s).s_led_period = s.s_led_period := by
  unfold _button_press_down_cb
  split_ifs <;> rfl

theorem press_down_state (s : State) :
    (_button_press_down_cb s).s_led_state = s.s_led_state := by
  unfold _button_press_down_cb
  split_ifs <;> rfl

theorem knob_right_colour (s : State) : colour (_knob_right_cb s) = colour s := by
  unfold _knob_right_cb
  split_ifs <;> rfl

theorem knob_left_colour (s : State) : colour (_knob_left_cb s) = colour s := by
  unfold _knob_left_cb
  split_ifs <;> rfl

theorem knob_right_state (s : State) :
    (_knob_right_cb s).s_led_state = s.s_led_state := by
  unfold _knob_right_cb
  split_ifs <;> rfl

theorem knob_left_state (s : State) :
    (_knob_left_cb s).s_led_state = s.s_led_state := by
  unfold _knob_left_cb
  split_ifs <;> rfl

/-- C8: each handler changes only its own variable.  Press-up changes nothing;
press-down keeps the period and the toggle state; both knob handlers keep the
three colour channels and the toggle state; one main-loop iteration keeps the
period and the colour. -/
theorem handlers_frame (tick : Nat) (b : Backend) (s : State) :
    _button_press_up_cb s = s ∧
    ((_button_press_down_cb s).s_led_period = s.s_led_period ∧
      (_button_press_down_cb s).s_led_state = s.s_led_state) ∧
    (colour (_knob_right_cb s) = colour s ∧
      (_knob_right_cb s).s_led_state = s.s_led_state) ∧
    (colour (_knob_left_cb s) = colour s ∧
      (_knob_left_cb s).s_led_state = s.s_led_state) ∧
    ((app_main_loop tick b s).1.s_led_period = s.s_led_period ∧
      colour (app_main_loop tick b s).1 = colour s) :=
  ⟨rfl, ⟨press_down_period s, press_down_state s⟩,
    ⟨knob_right_colour s, knob_right_state s⟩,
    ⟨knob_left_colour s, knob_left_state s⟩, ⟨rfl, rfl⟩⟩

/-! ## Invariants over runs -/

/-- The period stays aligned and in range across any single event. -/
theorem step_period_ok (tick : Nat) (b : Backend) (s : State) (e : Event)
    (h : s.s_led_period % 100 = 0 ∧ 100 ≤ s.s_led_period ∧ s.s_led_period ≤ 3100) :
    (step tick b s e).1.s_led_period % 100 = 0 ∧
      100 ≤ (step tick b s e).1.s_led_period ∧
      (step tick b s e).1.s_led_period ≤ 3100 := by
  obtain ⟨hm, hlo, hhi⟩ := h
  cases e
  · simp only [step, right_period_aligned s hm hlo hhi]
    omega
  · simp only [step, left_period_aligned s hm hlo hhi]
    omega
  · simp only [step, press_down_period]
    exact ⟨hm, hlo, hhi⟩
  · exact ⟨hm, hlo, hhi⟩
  · exact ⟨hm, hlo, hhi⟩

theorem run_period_ok (tick : Nat) (b : Backend) (evs : List Event) :
    ∀ s : State,
      (s.s_led_period % 100 = 0 ∧ 100 ≤ s.s_led_period ∧ s.s_led_period ≤ 3100) →
      ((run tick b s evs).1.s_led_period % 100 = 0 ∧
        100 ≤ (run tick b s evs).1.s_led_period ∧
        (run tick b s evs).1.s_led_period ≤ 3100) := by
  induction evs with
  | nil => intro s h; exact h
  | cons e es ih =>
    intro s h
    exact ih _ (step_period_ok tick b s e h)

/-- C3: from the initial program state, after every finite sequence of events
(knob right, knob left, press-down, press-up, main-loop iteration, in any
order) the blink period is a multiple of 100 and lies in [100, 3100]. -/
theorem period_invariant (tick : Nat) (b : Backend) (evs : List Event) :
    (run tick b init evs).1.s_led_period % 100 = 0 ∧
      100 ≤ (run tick b init evs).1.s_led_period ∧
      (run tick b init evs).1.s_led_period ≤ 3100 :=
  run_period_ok tick b evs init (by decide)

theorem step_single_five (tick : Nat) (b : Backend) (s : State) (e : Event)
    (h : SingleFive s) : SingleFive (step tick b s e).1 := by
  cases e
  · simpa only [step, SingleFive, knob_right_colour] using h
  · simpa only [step, SingleFive, knob_left_colour] using h
  · unfold SingleFive colour at h ⊢
    simp only [step, _button_press_down_cb]
    rcases h with h | h | h <;> simp only [Prod.mk.injEq] at h <;>
      obtain ⟨h1, h2, h3⟩ := h <;> simp [h1, h2, h3]
  · exact h
  · exact h

theorem run_single_five (tick : Nat) (b : Backend) (evs : List Event) :
    ∀ s : State, SingleFive s → SingleFive (run tick b s evs).1 := by
  induction evs with
  | nil => intro s h; exact h
  | cons e es ih =>
    intro s h
    exact ih _ (step_single_five tick b s e h)

theorem single_five_filter (s : State) (h : SingleFive s) :
    [s.s_led_red, s.s_led_green, s.s_led_blue].filter (fun c => decide (c ≠ 0)) = [5] := by
  unfold SingleFive colour at h
  rcases h with h | h | h <;> simp only [Prod.mk.injEq] at h <;>
    obtain ⟨h1, h2, h3⟩ := h <;> simp [h1, h2, h3]

/-- C4: from the initial program state (red 5, green 0, blue 0), after every
finite sequence of press-down events interleaved in any order with press-up,
knob and main-loop events, exactly one of red, green, blue is non-zero and it
equals 5: the non-zero channels, listed in order, are exactly the list [5], and
the colour is one of (5,0,0), (0,5,0), (0,0,5). -/
theorem colour_invariant (tick : Nat) (b : Backend) (evs : List Event) :
    [(run tick b init evs).1.s_led_red, (run tick b init evs).1.s_led_green,
        (run tick b init evs).1.s_led_blue].filter (fun c => decide (c ≠ 0)) = [5] ∧
      (colour (run tick b init evs).1 = (5, 0, 0) ∨
        colour (run tick b init evs).1 = (0, 5, 0) ∨
        colour (run tick b init evs).1 = (0, 0, 5)) :=
  ⟨single_five_filter _ (run_single_five tick b evs init (Or.inl rfl)),
    run_single_five tick b evs init (Or.inl rfl)⟩

/-! ## The colour cycle -/

theorem press_down_colour_cycle (n : Nat) :
    ∀ s : State, colour s = cycleColour n →
      colour (_button_press_down_cb s) = cycleColour (n + 1) := by
  intro s h
  unfold cycleColour colour at h ⊢
  unfold _button_press_down_cb
  have h3 : n % 3 = 0 ∨ n % 3 = 1 ∨ n % 3 = 2 := by omega
  rcases h3 with h0 | h0 | h0
  · have h1 : (n + 1) % 3 = 1 := by omega
    simp only [h0, h1, if_true, Prod.mk.injEq] at h ⊢
    obtain ⟨hr, hg, hb⟩ := h
    simp [hr, hb]
  · have h1 : (n + 1) % 3 = 2 := by omega
    simp only [h0, h1, Prod.mk.injEq] at h ⊢
    simp only [show ¬ (1 = 0) by decide, show ¬ (2 = 0) by decide,
      show ¬ (2 = 1) by decide, if_true, if_false, Prod.mk.injEq] at h ⊢
    obtain ⟨hr, hg, hb⟩ := h
    simp [hr, hg]
  · have h1 : (n + 1) % 3 = 0 := by omega
    simp only [h0, h1, Prod.mk.injEq] at h ⊢
    simp only [show ¬ (2 = 0) by decide, show ¬ (2 = 1) by decide, if_true, if_false,
      Prod.mk.injEq] at h ⊢
    obtain ⟨hr, hg, hb⟩ := h
    simp [hr, hg]

theorem press_down_iterate (n : Nat) :
    colour (_button_press_down_cb^[n] init) = cycleColour n := by
  induction n with
  | zero => rfl
  | succ k ih =>
    rw [Function.iterate_succ_apply']
    exact press_down_colour_cycle k _ ih

/-- C5: from the initial colour (5,0,0), the colour after n press-down events
is (5,0,0) when n mod 3 = 0, (0,5,0) when n mod 3 = 1 and (0,0,5) when
n mod 3 = 2; in particular one press gives green only, two give blue only and
three return to red only. -/
theorem press_down_cycle (n : Nat) :
    colour (_button_press_down_cb^[n] init) =
        (if n % 3 = 0 then (5, 0, 0) else if n % 3 = 1 then (0, 5, 0) else (0, 0, 5)) ∧
      colour (_button_press_down_cb init) = (0, 5, 0) ∧
      colour (_button_press_down_cb (_button_press_down_cb init)) = (0, 0, 5) ∧
      colour (_button_press_down_cb (_button_press_down_cb (_button_press_down_cb init)))
        = (5, 0, 0) :=
  ⟨press_down_iterate n, by decide, by decide, by decide⟩

/-! ## Repeated right rotations -/

theorem right_iterate_aligned (n : Nat) :
    ∀ s : State, s.s_led_period % 100 = 0 → 100 ≤ s.s_led_period →
      s.s_led_period ≤ 3100 →
      (_knob_right_cb^[n] s).s_led_period = min (s.s_led_period + 100 * n) 3100 := by
  induction n with
  | zero =>
    intro s _ _ hhi
    simp only [Function.iterate_zero, id_eq, Nat.mul_zero, Nat.add_zero]
    omega
  | succ k ih =>
    intro s hm hlo hhi
    rw [Function.iterate_succ_apply', right_period_aligned _ (by rw [ih s hm hlo hhi]; omega)
      (by rw [ih s hm hlo hhi]; omega) (by rw [ih s hm hlo hhi]; omega), ih s hm hlo hhi]
    omega

/-- C6: from a period P that is a multiple of 100 with 100 ≤ P ≤ 3100, n
consecutive rightward rotations yield min (P + 100 * n) 3100; in particular
from the initial period 1000, five rotations give 1500 and a further twenty
give 3100 (not 3500). -/
theorem knob_right_iterate (s : State) (n : Nat) (hm : s.s_led_period % 100 = 0)
    (hlo : 100 ≤ s.s_led_period) (hhi : s.s_led_period ≤ 3100) :
    (_knob_right_cb^[n] s).s_led_period = min (s.s_led_period + 100 * n) 3100 ∧
      init.s_led_period = 1000 ∧
      (_knob_right_cb^[5] init).s_led_period = 1500 ∧
      (_knob_right_cb^[20] (_knob_right_cb^[5] init)).s_led_period = 3100 ∧
      (_knob_right_cb^[20] (_knob_right_cb^[5] init)).s_led_period ≠ 3500 := by
  refine ⟨right_iterate_aligned n s hm hlo hhi, rfl, ?_, ?_, ?_⟩
  · exact right_iterate_aligned 5 init (by decide) (by decide) (by decide)
  · rw [← Function.iterate_add_apply]
    exact right_iterate_aligned 25 init (by decide) (by decide) (by decide)
  · rw [← Function.iterate_add_apply,
      right_iterate_aligned 25 init (by decide) (by decide) (by decide)]
    decide

theorem knob_right_iterate_witness :
    (init.s_led_period % 100 = 0 ∧ 100 ≤ init.s_led_period ∧ init.s_led_period ≤ 3100) ∧
    (_knob_right_cb^[7] init).s_led_period = min (init.s_led_period + 100 * 7) 3100 ∧
      init.s_led_period = 1000 ∧
      (_knob_right_cb^[5] init).s_led_period = 1500 ∧
      (_knob_right_cb^[20] (_knob_right_cb^[5] init)).s_led_period = 3100 ∧
      (_knob_right_cb^[20] (_knob_right_cb^[5] init)).s_led_period ≠ 3500 :=
  ⟨by decide, knob_right_iterate init 7 (by decide) (by decide) (by decide)⟩

/-! ## Alternation of the toggle state -/

theorem step_state_other (tick : Nat) (b : Backend) (s : State) (e : Event)
    (he : e ≠ Event.loop_iter) : (step tick b s e).1.s_led_state = s.s_led_state := by
  cases e
  · exact knob_right_state s
  · exact knob_left_state s
  · exact press_down_state s
  · rfl
  · exact absurd rfl he

theorem renderStates_from (tick : Nat) (b : Backend) (evs : List Event) :
    ∀ s : State, s.s_led_state < 2 →
      renderStates tick b s evs =
        (List.range (evs.count Event.loop_iter)).map (fun k => (s.s_led_state + k) % 2) := by
  induction evs with
  | nil => intro s _; rfl
  | cons e es ih =>
    intro s hs
    by_cases he : e = Event.loop_iter
    · subst he
      have hn : (step tick b s Event.loop_iter).1.s_led_state = lnot s.s_led_state := rfl
      have hl : lnot s.s_led_state < 2 := by unfold lnot; split_ifs <;> omega
      rw [renderStates, ih _ (by rw [hn]; exact hl), hn, List.count_cons_self,
        List.range_succ_eq_map, List.map_cons, List.map_map]
      congr 1
      · simp only [Nat.add_zero]; omega
      · apply List.map_congr_left
        intro k _
        simp only [Function.comp_apply]
        unfold lnot
        split_ifs <;> omega
    · have hr : renderStates tick b s (e :: es) = renderStates tick b (step tick b s e).1 es := by
        cases e <;> first | rfl | exact absurd rfl he
      rw [hr, ih _ (by rw [step_state_other tick b s e he]; exact hs),
        step_state_other tick b s e he, List.count_cons_of_ne (Ne.symm he)]

theorem gpioLevels_append (xs ys : List Effect) :
    gpioLevels (xs ++ ys) = gpioLevels xs ++ gpioLevels ys := by
  induction xs with
  | nil => rfl
  | cons x xs ih =>
    cases x <;> rw [List.cons_append] <;> simp only [gpioLevels, ih]
    split_ifs <;> simp

theorem gpioLevels_run (tick : Nat) (evs : List Event) :
    ∀ s : State, gpioLevels (run tick Backend.gpio s evs).2 =
      renderStates tick Backend.gpio s evs := by
  induction evs with
  | nil => intro s; rfl
  | cons e es ih =>
    intro s
    simp only [run, gpioLevels_append, ih]
    cases e <;> simp [step, renderStates, gpioLevels, app_main_loop, blink_led]

/-- C7: starting from toggle state 0, the state handed to `blink_led` in the
k-th main-loop iteration (k = 0, 1, 2, ...) is k mod 2, whatever knob and
button events occur in between; with the GPIO backend the levels written to
the pin are the same sequence, so the first iteration drives the pin low (0),
the second high (1), and consecutive iterations render opposite states. -/
theorem toggle_alternates (tick : Nat) (b : Backend) (s : State) (evs : List Event)
    (h0 : s.s_led_state = 0) :
    renderStates tick b s evs =
        (List.range (evs.count Event.loop_iter)).map (fun k => k % 2) ∧
      gpioLevels (run tick Backend.gpio s evs).2 =
        (List.range (evs.count Event.loop_iter)).map (fun k => k % 2) ∧
      (∀ k, k + 1 < (renderStates tick b s evs).length →
        (renderStates tick b s evs).get? k ≠ (renderStates tick b s evs).get? (k + 1)) := by
  have key : ∀ c : Backend, renderStates tick c s evs =
      (List.range (evs.count Event.loop_iter)).map (fun k => k % 2) := by
    intro c
    rw [renderStates_from tick c evs s (by omega), h0]
    simp only [Nat.zero_add]
  refine ⟨key b, ?_, ?_⟩
  · rw [gpioLevels_run, key]
  · intro k hk
    rw [key b] at hk ⊢
    simp only [List.length_map, List.length_range] at hk
    simp only [List.get?_eq_getElem?, List.getElem?_map,
      List.getElem?_range (by omega : k < evs.count Event.loop_iter),
      List.getElem?_range hk, Option.map_some']
    intro hc
    have := Option.some.inj hc
    omega

theorem toggle_alternates_witness :
    init.s_led_state = 0 ∧
    (renderStates 10 Backend.gpio init
        [Event.loop_iter, Event.knob_right, Event.loop_iter, Event.press_down,
          Event.loop_iter] = [0, 1, 0] ∧
      gpioLevels (run 10 Backend.gpio init
        [Event.loop_iter, Event.knob_right, Event.loop_iter, Event.press_down,
          Event.loop_iter]).2 = [0, 1, 0]) :=
  ⟨rfl,
    (toggle_alternates 10 Backend.gpio init
      [Event.loop_iter, Event.knob_right, Event.loop_iter, Event.press_down,
        Event.loop_iter] rfl).1,
    (toggle_alternates 10 Backend.gpio init
      [Event.loop_iter, Event.knob_right, Event.loop_iter, Event.press_down,
        Event.loop_iter] rfl).2.1⟩

/-! ## Sixteen-bit arithmetic of the knob handlers -/

/-- C9: the guard of `_knob_right_cb` alone does not enforce the 3100 bound:
there is a 16-bit period in [100, 3100] that is not a multiple of 100, namely
3050, from which one rightward rotation yields 3150, above 3100. -/
theorem knob_right_unaligned_exceeds :
    (∃ p : Nat, p < 65536 ∧ 100 ≤ p ∧ p ≤ 3100 ∧ p % 100 ≠ 0 ∧
        3100 < (_knob_right_cb { init with s_led_period := p }).s_led_period) ∧
      (_knob_right_cb { init with s_led_period := 3050 }).s_led_period = 3150 :=
  ⟨⟨3050, by decide⟩, by decide⟩

/-- C10: for every 16-bit period p the knob handlers never wrap modulo 2^16:
`_knob_right_cb` yields exactly p + 100 when p < 3100 and p otherwise,
`_knob_left_cb` yields exactly p - 100 when p > 100 and p otherwise, as exact
integers, and both results lie in [0, 65535]. -/
theorem knob_no_wrap (s : State) (hp : s.s_led_period < 65536) :
    (((_knob_right_cb s).s_led_period : Int) =
        (if s.s_led_period < 3100 then (s.s_led_period : Int) + 100
          else (s.s_led_period : Int)) ∧
      (_knob_right_cb s).s_led_period < 65536) ∧
    (((_knob_left_cb s).s_led_period : Int) =
        (if s.s_led_period > 100 then (s.s_led_period : Int) - 100
          else (s.s_led_period : Int)) ∧
      (_knob_left_cb s).s_led_period < 65536) := by
  refine ⟨?_, ?_⟩
  · unfold _knob_right_cb UINT16_MOD
    split_ifs with h
    · simp only
      omega
    · omega
  · unfold _knob_left_cb
    split_ifs with h
    · rw [left_store_exact s.s_led_period h hp]
      simp only
      omega
    · omega

theorem knob_no_wrap_witness :
    (65535 : Nat) < 65536 ∧
    ((((_knob_right_cb { init with s_led_period := 65535 }).s_led_period : Int) =
        (if (65535 : Nat) < 3100 then ((65535 : Nat) : Int) + 100
          else ((65535 : Nat) : Int)) ∧
      (_knob_right_cb { init with s_led_period := 65535 }).s_led_period < 65536) ∧
    (((_knob_left_cb { init with s_led_period := 65535 }).s_led_period : Int) =
        (if (65535 : Nat) > 100 then ((65535 : Nat) : Int) - 100
          else ((65535 : Nat) : Int)) ∧
      (_knob_left_cb { init with s_led_period := 65535 }).s_led_period < 65536)) :=
  ⟨by decide, knob_no_wrap { init with s_led_period := 65535 } (by decide)⟩

end EspBlink
